import Mathlib

/-!
Verification of the Lenia continuous cellular automaton engine
(single-species WebGL engine, multi-species ecosystem engine,
parameter/mutation model, and preset gallery).

The shader arithmetic is embedded over `ℝ` (the idealised semantics of the
GLSL float expressions); the parameter-model and preset-store operations,
which are exact in the source, are embedded computably over `ℚ`, `ℤ`,
`String` and lists.
-/

/- ============================================================
   Computable part: texture addressing, parameter assignment,
   mutation model, preset gallery
   ============================================================ -/

/-- Texture addressing of the single-species engine: `Lenia.createTexture`
sets `TEXTURE_WRAP_S/T` to `gl.REPEAT`, so a texel coordinate wraps
modulo the texture extent. -/
def simSampleIndex (w x : ℤ) : ℤ := x % w

/-- Texture addressing of the ecosystem engine: `LeniaEcosystem.createTexture`
sets `TEXTURE_WRAP_S/T` to `gl.CLAMP_TO_EDGE`, so a texel coordinate is
clamped into `[0, w-1]`. -/
def ecoSampleIndex (w x : ℤ) : ℤ := max 0 (min (w - 1) x)

/-- A species parameter record `{R, T, mu, sigma}` as passed to
`Lenia.setParameters`. -/
structure SpeciesParams where
  R : ℚ
  T : ℚ
  mu : ℚ
  sigma : ℚ
deriving DecidableEq

/-- JavaScript `a || b` on numbers: `0` is falsy, so a zero value falls back
to the default; every nonzero value (negative included) is kept. -/
def jsOr (x fallback : ℚ) : ℚ := if x = 0 then fallback else x

/-- `Lenia.setParameters(params)`: builds the `custom` species from the
current base species, taking each field as `params.X || baseSpecies.X`.
The method performs no validation and never throws. -/
def setParameters (params base : SpeciesParams) : SpeciesParams :=
  { R := jsOr params.R base.R
    T := jsOr params.T base.T
    mu := jsOr params.mu base.mu
    sigma := jsOr params.sigma base.sigma }

/-- The `orbium` entry of the `SPECIES` table in the WebGL engine file:
`R: 10, T: 10, mu: 0.15, sigma: 0.017`. -/
def speciesOrbium : SpeciesParams := ⟨10, 10, 0.15, 0.017⟩

/-- `Math.max(lo, Math.min(hi, x))`, the clamping idiom used by
`Lenia.mutate`. -/
def clampJS (lo hi x : ℚ) : ℚ := max lo (min hi x)

/-- One call of `Lenia.mutate()`: each tunable takes a random-walk step
`(rand - 0.5) * speed * scale` and is clamped to its fixed range
(`R, T ∈ [5,20]`, `mu ∈ [0.05,0.3]`, `sigma ∈ [0.005,0.05]`).
`d` holds the four `Math.random()` draws of that call. -/
def mutateStep (p : SpeciesParams) (speed : ℚ) (d : ℚ × ℚ × ℚ × ℚ) : SpeciesParams :=
  { R := clampJS 5 20 (p.R + (d.1 - 0.5) * speed * 100)
    T := clampJS 5 20 (p.T + (d.2.1 - 0.5) * speed * 100)
    mu := clampJS 0.05 0.3 (p.mu + (d.2.2.1 - 0.5) * speed)
    sigma := clampJS 0.005 0.05 (p.sigma + (d.2.2.2 - 0.5) * speed * 0.1) }

/-- `N` consecutive `mutate()` calls, one per element of `draws`. -/
def mutateN (p : SpeciesParams) (speed : ℚ) (draws : List (ℚ × ℚ × ℚ × ℚ)) : SpeciesParams :=
  draws.foldl (fun q d => mutateStep q speed d) p

/-- The declared `[min, max]` ranges of the four mutated tunables. -/
def mutInBounds (p : SpeciesParams) : Prop :=
  5 ≤ p.R ∧ p.R ≤ 20 ∧ 5 ≤ p.T ∧ p.T ≤ 20 ∧
  0.05 ≤ p.mu ∧ p.mu ≤ 0.3 ∧ 0.005 ≤ p.sigma ∧ p.sigma ≤ 0.05

instance (p : SpeciesParams) : Decidable (mutInBounds p) := by
  unfold mutInBounds; infer_instance

/-- A stored preset value: the saved parameter record together with the
`created` timestamp that `savePreset` attaches. -/
structure PresetRec where
  R : ℚ
  T : ℚ
  mu : ℚ
  sigma : ℚ
deriving DecidableEq

/-- The preset store `this.presets`: a JS object, i.e. a finite mapping
from string ids to records; modelled as an association list with one
entry per id. -/
abbrev PresetStore := List (String × PresetRec × ℕ)

/-- Writing `this.presets[id] = {...params, created: now}`: replaces the
entry when the id is present, otherwise appends a new entry. -/
def storeSave (s : PresetStore) (id : String) (v : PresetRec × ℕ) : PresetStore :=
  if (s.lookup id).isSome then
    s.map (fun e => if e.1 = id then (id, v) else e)
  else
    s ++ [(id, v)]

/-- `PresetGallery.savePreset(id, params)`: throws when the store already
holds `maxPresets = 20` entries and `id` is not present (`!this.presets[id]`);
otherwise stores `{...params, created: Date.now()}` under `id`.
The throw happens before any mutation, so on error the store is unchanged. -/
def savePreset (s : PresetStore) (id : String) (params : PresetRec) (now : ℕ) :
    Except String PresetStore :=
  if 20 ≤ s.length ∧ s.lookup id = none then
    Except.error "Maximum 20 presets reached"
  else
    Except.ok (storeSave s id (params, now))

/-- A filled preset store with twenty entries, for concrete instantiation. -/
def testStore : PresetStore :=
  (List.range 20).map (fun i => ("p" ++ toString i, ⟨12, 18, 0.14, 0.015⟩, 0))

/- ============================================================
   Real-valued part: the GLSL simulation shaders
   ============================================================ -/

noncomputable section

/-- GLSL `clamp(x, lo, hi) = min(max(x, lo), hi)`. -/
def glClamp (x lo hi : ℝ) : ℝ := min (max x lo) hi

/-- GLSL `smoothstep(e0, e1, x)`: Hermite interpolation of the clamped
normalised position. -/
def smoothstep (e0 e1 x : ℝ) : ℝ :=
  glClamp ((x - e0) / (e1 - e0)) 0 1 * glClamp ((x - e0) / (e1 - e0)) 0 1 *
    (3 - 2 * glClamp ((x - e0) / (e1 - e0)) 0 1)

/-- The ring kernel of both simulation shaders:
`kr = 4r(1-r); return kr*kr`. -/
def kernel (r : ℝ) : ℝ := (4 * r * (1 - r)) ^ 2

/-- The growth function of both simulation shaders:
`2 * exp(-((u-mu)/sigma)^2 / 2) - 1`. -/
def growth (u mu sigma : ℝ) : ℝ :=
  2 * Real.exp (-(((u - mu) / sigma) * ((u - mu) / sigma)) / 2) - 1

/-- The square of integer offsets `[-n, n] × [-n, n]` traversed by the
shaders' fixed double loops. -/
def square (n : ℕ) : Finset (ℤ × ℤ) :=
  Finset.Icc (-(n : ℤ)) (n : ℤ) ×ˢ Finset.Icc (-(n : ℤ)) (n : ℤ)

/-- Euclidean length of an integer offset:
`dist = sqrt(fdx*fdx + fdy*fdy)`. -/
def offsetDist (d : ℤ × ℤ) : ℝ := Real.sqrt ((d.1 : ℝ) ^ 2 + (d.2 : ℝ) ^ 2)

/-- Per-species parameters as set on the simulation shader's uniforms by
`Lenia.step`: `u_R, u_T, u_mu, u_sigma, u_dt, u_trail`. -/
structure SimParams where
  R : ℝ
  T : ℝ
  mu : ℝ
  sigma : ℝ
  dt : ℝ
  trail : ℝ

/-- `total` of `SIMULATION_SHADER.main`: the kernel-weighted sum of the
neighborhood, looping `dy, dx ∈ [-12, 12]` and skipping offsets with
`dist > u_R`.  Sampling uses the REPEAT wrap of `Lenia.createTexture`. -/
def simTotal (f : ℤ → ℤ → ℝ) (W H : ℤ) (R : ℝ) (x y : ℤ) : ℝ :=
  ∑ d ∈ square 12,
    if offsetDist d ≤ R then
      kernel (offsetDist d / R) * f (simSampleIndex W (x + d.1)) (simSampleIndex H (y + d.2))
    else 0

/-- `kernelSum` of `SIMULATION_SHADER.main`: the sum of kernel weights
over the same offsets. -/
def simKernelSum (R : ℝ) : ℝ :=
  ∑ d ∈ square 12, if offsetDist d ≤ R then kernel (offsetDist d / R) else 0

/-- `U = total / max(kernelSum, 0.001)`. -/
def simPotential (f : ℤ → ℤ → ℝ) (W H : ℤ) (R : ℝ) (x y : ℤ) : ℝ :=
  simTotal f W H R x y / max (simKernelSum R) 0.001

/-- One cell of `SIMULATION_SHADER.main`:
`newState = clamp(currentState + G * u_dt / u_T, 0, 1); newState *= u_trail`. -/
def simCellNext (f : ℤ → ℤ → ℝ) (W H : ℤ) (p : SimParams) (x y : ℤ) : ℝ :=
  glClamp (f x y + growth (simPotential f W H p.R x y) p.mu p.sigma * p.dt / p.T) 0 1 * p.trail

/-- One tick of the single-species engine over the whole field. -/
def simStep (W H : ℤ) (p : SimParams) (f : ℤ → ℤ → ℝ) : ℤ → ℤ → ℝ :=
  fun x y => simCellNext f W H p x y

/-- The uniform wiring of `Lenia.step`: `u_dt` is the user speed multiplier
`this.timeScale` and `u_trail` is `this.trailEnabled ? this.trailAmount : 1.0`. -/
def leniaStepParams (R T mu sigma timeScale : ℝ) (trailEnabled : Bool) (trailAmount : ℝ) :
    SimParams :=
  ⟨R, T, mu, sigma, timeScale, if trailEnabled then trailAmount else 1⟩

/-- The set of offsets that actually contribute to the single-species
convolution: the fixed `[-12,12]` square filtered by `dist ≤ u_R`. -/
def simSampledOffsets (R : ℝ) : Finset (ℤ × ℤ) :=
  (square 12).filter (fun d => offsetDist d ≤ R)

/-- Modelled from the spec: the neighborhood the spec prescribes for the
potential — exactly the integer offsets with Euclidean distance `≤ R`
(a disc, not a square).  For the radii in question (`R ≤ 20`, the upper
mutation bound) every such offset lies in the `[-20,20]` square. -/
def specDiscOffsets (R : ℝ) : Finset (ℤ × ℤ) :=
  (square 20).filter (fun d => offsetDist d ≤ R)

/-- Uniforms of `ECOSYSTEM_SIMULATION_SHADER` as set by
`LeniaEcosystem.step`: component-wise `(prey, predator, apex)` radii,
time scales, growth centres and widths, plus `u_dt`, `u_predation`,
`u_benefit`. -/
structure EcoParams where
  R : ℝ × ℝ × ℝ
  T : ℝ × ℝ × ℝ
  mu : ℝ × ℝ × ℝ
  sigma : ℝ × ℝ × ℝ
  dt : ℝ
  predation : ℝ
  benefit : ℝ

/-- One channel's `totals` accumulation in `ECOSYSTEM_SIMULATION_SHADER.main`:
loops `dy, dx ∈ [-15, 15]`, skips `dist < 0.5`, and adds the kernel-weighted
neighbor value when `dist ≤ u_R.c`.  Sampling uses the CLAMP_TO_EDGE
addressing of `LeniaEcosystem.createTexture`. -/
def ecoChannelTotal (g : ℤ → ℤ → ℝ) (W H : ℤ) (Rc : ℝ) (x y : ℤ) : ℝ :=
  ∑ d ∈ square 15,
    if 0.5 ≤ offsetDist d ∧ offsetDist d ≤ Rc then
      kernel (offsetDist d / Rc) * g (ecoSampleIndex W (x + d.1)) (ecoSampleIndex H (y + d.2))
    else 0

/-- One channel's `kernelSums` accumulation. -/
def ecoChannelKernelSum (Rc : ℝ) : ℝ :=
  ∑ d ∈ square 15,
    if 0.5 ≤ offsetDist d ∧ offsetDist d ≤ Rc then kernel (offsetDist d / Rc) else 0

/-- `U.c = totals.c / max(kernelSums.c, 0.001)` for one channel. -/
def ecoPotential (g : ℤ → ℤ → ℝ) (W H : ℤ) (Rc : ℝ) (x y : ℤ) : ℝ :=
  ecoChannelTotal g W H Rc x y / max (ecoChannelKernelSum Rc) 0.001

/-- `preyLoss = localPred * u_predation * localPrey`. -/
def ecoPreyLoss (preyD predD predation : ℝ) : ℝ := predD * predation * preyD

/-- `predGain = localPrey * u_benefit * localPred * 0.5`. -/
def ecoPredGain (preyD predD benefit : ℝ) : ℝ := preyD * benefit * predD * 0.5

/-- `predLoss = localApex * u_predation * localPred`. -/
def ecoPredLoss (predD apexD predation : ℝ) : ℝ := apexD * predation * predD

/-- `apexGain = localPred * u_benefit * localApex * 0.3`. -/
def ecoApexGain (predD apexD benefit : ℝ) : ℝ := predD * benefit * apexD * 0.3

/-- `crowding = smoothstep(0.5, 1.5, totalDensity) * 0.1` with
`totalDensity` the same-cell sum of the three channels. -/
def ecoCrowding (preyD predD apexD : ℝ) : ℝ :=
  smoothstep 0.5 1.5 (preyD + predD + apexD) * 0.1

/-- The interaction-and-integration tail of
`ECOSYSTEM_SIMULATION_SHADER.main` (its lines after the growth values are
known): the three `new*` updates, their clamps to `[0,1]`, and the
per-species decay multiplications `*= 0.9995 / 0.9993 / 0.9990`. -/
def ecoLocalNext (preyD predD apexD Gp Gq Ga dt Tx Ty Tz predation benefit : ℝ) :
    ℝ × ℝ × ℝ :=
  (glClamp (preyD + Gp * dt / Tx - ecoPreyLoss preyD predD predation
      - ecoCrowding preyD predD apexD * preyD) 0 1 * 0.9995,
   glClamp (predD + Gq * dt / Ty + ecoPredGain preyD predD benefit
      - ecoPredLoss predD apexD predation
      - ecoCrowding preyD predD apexD * predD) 0 1 * 0.9993,
   glClamp (apexD + Ga * dt / Tz + ecoApexGain predD apexD benefit
      - ecoCrowding preyD predD apexD * apexD) 0 1 * 0.9990)

/-- One cell of `ECOSYSTEM_SIMULATION_SHADER.main`: per-channel potentials
and growths feeding the interaction tail. -/
def ecoCellNext (f : ℤ → ℤ → ℝ × ℝ × ℝ) (W H : ℤ) (p : EcoParams) (x y : ℤ) :
    ℝ × ℝ × ℝ :=
  ecoLocalNext (f x y).1 (f x y).2.1 (f x y).2.2
    (growth (ecoPotential (fun i j => (f i j).1) W H p.R.1 x y) p.mu.1 p.sigma.1)
    (growth (ecoPotential (fun i j => (f i j).2.1) W H p.R.2.1 x y) p.mu.2.1 p.sigma.2.1)
    (growth (ecoPotential (fun i j => (f i j).2.2) W H p.R.2.2 x y) p.mu.2.2 p.sigma.2.2)
    p.dt p.T.1 p.T.2.1 p.T.2.2 p.predation p.benefit

/-- One tick of the ecosystem engine over the whole field. -/
def ecoStep (W H : ℤ) (p : EcoParams) (f : ℤ → ℤ → ℝ × ℝ × ℝ) : ℤ → ℤ → ℝ × ℝ × ℝ :=
  fun x y => ecoCellNext f W H p x y

/-- The ecosystem uniforms of `LeniaEcosystem.step` with the default
constructor time scale `0.5` and both interaction strengths set to `0`
(the setting of the conservation-style check). -/
def ecoZeroInteraction : EcoParams :=
  { R := (10, 12, 14)
    T := (15, 20, 25)
    mu := (0.14, 0.13, 0.12)
    sigma := (0.015, 0.012, 0.010)
    dt := 0.5
    predation := 0
    benefit := 0 }

/-- A constant field with all three channels at `0.4`. -/
def ecoFieldA : ℤ → ℤ → ℝ × ℝ × ℝ := fun _ _ => (0.4, 0.4, 0.4)

/-- A constant field agreeing with `ecoFieldA` on the prey and predator
channels but with an empty apex channel. -/
def ecoFieldB : ℤ → ℤ → ℝ × ℝ × ℝ := fun _ _ => (0.4, 0.4, 0)

/-- A constant single-species half-density field. -/
def halfField : ℤ → ℤ → ℝ := fun _ _ => 0.5

/-- A constant ecosystem half-density field. -/
def halfEcoField : ℤ → ℤ → ℝ × ℝ × ℝ := fun _ _ => (0.5, 0.5, 0.5)

/-- Orbium uniforms with the default speed and the default trail amount
`0.95` enabled. -/
def orbiumTrailParams : SimParams := ⟨10, 10, 0.15, 0.017, 1, 0.95⟩

end

/- ============================================================
   Shared helper lemmas
   ============================================================ -/

theorem glClamp_mem_unit (x : ℝ) : 0 ≤ glClamp x 0 1 ∧ glClamp x 0 1 ≤ 1 :=
  ⟨le_min (le_max_right x 0) zero_le_one, min_le_right _ _⟩

theorem glClamp_eq_self (x : ℝ) (h0 : 0 ≤ x) (h1 : x ≤ 1) : glClamp x 0 1 = x := by
  unfold glClamp
  rw [max_eq_left h0, min_eq_left h1]

theorem growth_bounds (u mu sigma : ℝ) : -1 < growth u mu sigma ∧ growth u mu sigma ≤ 1 := by
  constructor
  · have h := Real.exp_pos (-((u - mu) / sigma * ((u - mu) / sigma)) / 2)
    unfold growth
    linarith
  · have h : Real.exp (-((u - mu) / sigma * ((u - mu) / sigma)) / 2) ≤ 1 := by
      rw [Real.exp_le_one_iff]
      nlinarith [mul_self_nonneg ((u - mu) / sigma)]
    unfold growth
    linarith

theorem clampJS_mem (lo hi x : ℚ) (h : lo ≤ hi) :
    lo ≤ clampJS lo hi x ∧ clampJS lo hi x ≤ hi :=
  ⟨le_max_left _ _, max_le h (min_le_left _ _)⟩

/- ============================================================
   C3 — toroidal sampling
   ============================================================ -/

/-- Claim C3, counterexample.  The claim asserts that neighborhood sampling
wraps at the boundaries in both engines.  At width 8, the coordinate 8 (one
step past the right edge) wraps to column 0 in the single-species engine,
but the ecosystem engine's CLAMP_TO_EDGE addressing reads column 7 — the
edge itself, not the cell re-entering from the opposite edge. -/
theorem C3_counterexample :
    simSampleIndex 8 8 = 0 ∧ ecoSampleIndex 8 8 = 7 ∧
      ecoSampleIndex 8 8 ≠ simSampleIndex 8 8 := by
  refine ⟨by decide, by decide, by decide⟩

/-- Claim C3, amended: in the single-species engine a neighbor offset that
leaves the grid re-enters from the opposite edge (addressing is modulo the
extent, periodic and in range), while in the ecosystem engine a coordinate
past an edge is clamped to that edge (offsets past the right edge read
column `w-1`, offsets past the left edge read column `0`). -/
theorem C3_amended (w x : ℤ) (hw : 0 < w) :
    simSampleIndex w (x + w) = simSampleIndex w x ∧
      0 ≤ simSampleIndex w x ∧ simSampleIndex w x < w ∧
      (0 ≤ x → x < w → simSampleIndex w x = x) ∧
      (w ≤ x → ecoSampleIndex w x = w - 1) ∧
      (x < 0 → ecoSampleIndex w x = 0) := by
  unfold simSampleIndex ecoSampleIndex
  refine ⟨?_, Int.emod_nonneg x (by omega), Int.emod_lt_of_pos x hw,
    fun h0 h1 => Int.emod_eq_of_lt h0 h1, by omega, by omega⟩
  conv_lhs => rw [show x + w = x + w * 1 by ring]
  exact Int.add_mul_emod_self_left x w 1

/-- Witness for `C3_amended` at width 8, coordinate 5. -/
theorem C3_amended_witness :
    simSampleIndex 8 (5 + 8) = simSampleIndex 8 5 ∧
      0 ≤ simSampleIndex 8 5 ∧ simSampleIndex 8 5 < 8 ∧
      (0 ≤ (5:ℤ) → (5:ℤ) < 8 → simSampleIndex 8 5 = 5) ∧
      ((8:ℤ) ≤ 5 → ecoSampleIndex 8 5 = 8 - 1) ∧
      ((5:ℤ) < 0 → ecoSampleIndex 8 5 = 0) :=
  C3_amended 8 5 (by decide)

/- ============================================================
   C4 — setParameters validation
   ============================================================ -/

/-- Claim C4, counterexample.  The claim asserts that `setParameters`
rejects records with `R ≤ 0` with an error and never silently replaces a
zero-or-negative value with a valid one.  In fact, with the orbium base
species, a record with `R = 0` is silently turned into `R = 10` (the JS
`params.R || baseSpecies.R` fallback), and a record with `R = -3` is
installed unchanged — no error path exists. -/
theorem C4_counterexample :
    (setParameters ⟨0, 7, 0.25, 0.01⟩ speciesOrbium).R = 10 ∧
      (setParameters ⟨-3, 7, 0.25, 0.01⟩ speciesOrbium).R = -3 := by
  refine ⟨by decide, by decide⟩

/-- Claim C4, amended: `setParameters` performs no validation and never
raises an error; each field is taken from the supplied record unless that
field is `0` (JS falsy), in which case it is silently replaced by the base
species' value.  Negative values pass through unchanged. -/
theorem C4_amended (params base : SpeciesParams) :
    setParameters params base =
      ⟨if params.R = 0 then base.R else params.R,
       if params.T = 0 then base.T else params.T,
       if params.mu = 0 then base.mu else params.mu,
       if params.sigma = 0 then base.sigma else params.sigma⟩ := rfl

/- ============================================================
   C7 — mutation bounds
   ============================================================ -/

theorem mutateStep_inBounds (p : SpeciesParams) (speed : ℚ) (d : ℚ × ℚ × ℚ × ℚ) :
    mutInBounds (mutateStep p speed d) := by
  unfold mutInBounds mutateStep
  refine ⟨(clampJS_mem _ _ _ (by norm_num)).1, (clampJS_mem _ _ _ (by norm_num)).2,
    (clampJS_mem _ _ _ (by norm_num)).1, (clampJS_mem _ _ _ (by norm_num)).2,
    (clampJS_mem _ _ _ (by norm_num)).1, (clampJS_mem _ _ _ (by norm_num)).2,
    (clampJS_mem _ _ _ (by norm_num)).1, (clampJS_mem _ _ _ (by norm_num)).2⟩

/-- Claim C7: starting from any parameter record inside the declared
ranges (`R,T ∈ [5,20]`, `mu ∈ [0.05,0.3]`, `sigma ∈ [0.005,0.05]`), after
any number of `mutate()` calls with any mutation speed and any sequence of
random draws, every parameter is still inside its declared range — each
step adds `(rand-0.5)·speed·scale` and then clamps. -/
theorem C7_mutation_bounds (p : SpeciesParams) (speed : ℚ)
    (draws : List (ℚ × ℚ × ℚ × ℚ)) (hp : mutInBounds p) :
    mutInBounds (mutateN p speed draws) := by
  induction draws generalizing p with
  | nil => exact hp
  | cons d rest ih => exact ih _ (mutateStep_inBounds p speed d)

/-- Witness for `C7_mutation_bounds`: the orbium parameters, mutation speed
`0.0005` and two concrete draw quadruples. -/
theorem C7_mutation_bounds_witness :
    mutInBounds ⟨10, 10, 0.15, 0.017⟩ ∧
      mutInBounds (mutateN ⟨10, 10, 0.15, 0.017⟩ 0.0005
        [(1, 0, 0.5, 0.25), (0.9, 0.1, 0, 1)]) :=
  ⟨by norm_num [mutInBounds],
   C7_mutation_bounds ⟨10, 10, 0.15, 0.017⟩ 0.0005
     [(1, 0, 0.5, 0.25), (0.9, 0.1, 0, 1)] (by norm_num [mutInBounds])⟩

/- ============================================================
   C8 — growth-function shape
   ============================================================ -/

/-- Claim C8: for every `mu`, every `sigma > 0` and every real `k`, the
growth function satisfies `growth mu = 1` (its maximum value),
`growth (mu - k·sigma) = growth (mu + k·sigma)` (even symmetry about `mu`),
and its value at every potential lies in `(-1, 1]`. -/
theorem C8_growth_shape (mu sigma k : ℝ) (hsigma : 0 < sigma) :
    growth mu mu sigma = 1 ∧
      growth (mu - k * sigma) mu sigma = growth (mu + k * sigma) mu sigma ∧
      ∀ u : ℝ, -1 < growth u mu sigma ∧ growth u mu sigma ≤ 1 := by
  refine ⟨?_, ?_, fun u => growth_bounds u mu sigma⟩
  · unfold growth
    norm_num
  · unfold growth
    have hs : sigma ≠ 0 := ne_of_gt hsigma
    have h1 : (mu - k * sigma - mu) / sigma = -k := by field_simp
    have h2 : (mu + k * sigma - mu) / sigma = k := by field_simp
    rw [h1, h2]
    ring_nf

/-- Witness for `C8_growth_shape` at `mu = 0.15`, `sigma = 0.017`, `k = 2`. -/
theorem C8_growth_shape_witness :
    growth 0.15 0.15 0.017 = 1 ∧
      growth (0.15 - 2 * 0.017) 0.15 0.017 = growth (0.15 + 2 * 0.017) 0.15 0.017 ∧
      ∀ u : ℝ, -1 < growth u 0.15 0.017 ∧ growth u 0.15 0.017 ≤ 1 :=
  C8_growth_shape 0.15 0.017 2 (by norm_num)

/- ============================================================
   C9 — preset gallery capacity
   ============================================================ -/

theorem lookup_replace (s : PresetStore) (id : String) (v : PresetRec × ℕ)
    (h : (s.lookup id).isSome) :
    (s.map (fun e => if e.1 = id then (id, v) else e)).lookup id = some v := by
  induction s with
  | nil => simp at h
  | cons e rest ih =>
    obtain ⟨k, w⟩ := e
    by_cases he : k = id
    · subst he
      rw [List.map_cons,
        show (if ((k, w) : String × PresetRec × ℕ).1 = k then (k, v) else (k, w)) = (k, v)
          from if_pos rfl,
        List.lookup_cons]
      simp
    · have hk : (id == k) = false := beq_eq_false_iff_ne.mpr (Ne.symm he)
      have h2 : (rest.lookup id).isSome := by
        rw [List.lookup_cons, hk] at h
        exact h
      rw [List.map_cons,
        show (if ((k, w) : String × PresetRec × ℕ).1 = id then (id, v) else (k, w)) = (k, w)
          from if_neg he,
        List.lookup_cons, hk]
      exact ih h2

theorem storeSave_length (s : PresetStore) (id : String) (v : PresetRec × ℕ)
    (h : (s.lookup id).isSome) : (storeSave s id v).length = s.length := by
  unfold storeSave
  rw [if_pos h, List.length_map]

/-- Claim C9: when the store already holds 20 presets, `savePreset` with an
id that is not present throws `Maximum 20 presets reached` (before any
mutation, so the mapping is unchanged), while `savePreset` with an id that
is present never throws: it overwrites that entry with the new record and
the store still holds 20 presets — the capacity limit never blocks an
overwrite. -/
theorem C9_save_at_capacity (s : PresetStore) (id : String) (params : PresetRec)
    (now : ℕ) (h : s.length = 20) :
    (s.lookup id = none →
      savePreset s id params now = Except.error "Maximum 20 presets reached") ∧
    (∀ v, s.lookup id = some v →
      savePreset s id params now = Except.ok (storeSave s id (params, now)) ∧
      (storeSave s id (params, now)).lookup id = some (params, now) ∧
      (storeSave s id (params, now)).length = 20) := by
  constructor
  · intro hn
    unfold savePreset
    rw [if_pos ⟨by omega, hn⟩]
  · intro v hv
    have hs : (s.lookup id).isSome := by rw [hv]; rfl
    refine ⟨?_, ?_, ?_⟩
    · unfold savePreset
      rw [if_neg]
      rintro ⟨-, h2⟩
      rw [hv] at h2
      exact Option.some_ne_none v h2
    · unfold storeSave
      rw [if_pos hs]
      exact lookup_replace s id (params, now) hs
    · rw [storeSave_length s id _ hs, h]

/-- Witness for `C9_save_at_capacity` on a concrete 20-entry store: saving
under the fresh id `zzz` errors, saving under the existing id `p3`
succeeds. -/
theorem C9_save_at_capacity_witness :
    savePreset testStore "zzz" ⟨10, 10, 0.15, 0.017⟩ 5 =
      Except.error "Maximum 20 presets reached" ∧
    savePreset testStore "p3" ⟨10, 10, 0.15, 0.017⟩ 5 =
      Except.ok (storeSave testStore "p3" (⟨10, 10, 0.15, 0.017⟩, 5)) :=
  ⟨(C9_save_at_capacity testStore "zzz" ⟨10, 10, 0.15, 0.017⟩ 5 (by rfl)).1 (by rfl),
   ((C9_save_at_capacity testStore "p3" ⟨10, 10, 0.15, 0.017⟩ 5 (by rfl)).2
     (⟨12, 18, 0.14, 0.015⟩, 0) (by rfl)).1⟩

/- ============================================================
   C6 — single-species per-cell update formula
   ============================================================ -/

/-- Claim C6: for every cell, channel and state, the single-species step
writes `clamp(current + G · dt / T, 0, 1)` — with `dt` the nominal step
scaled by the user speed multiplier (`u_dt = this.timeScale`) — and then
multiplies the clamped result by the trail factor, which is `trailAmount`
when the trail effect is enabled and `1.0` when disabled. -/
theorem C6_update_formula (f : ℤ → ℤ → ℝ) (W H x y : ℤ)
    (R T mu sigma timeScale trailAmount : ℝ) (trailEnabled : Bool) :
    simStep W H (leniaStepParams R T mu sigma timeScale trailEnabled trailAmount) f x y =
      glClamp (f x y + growth (simPotential f W H R x y) mu sigma * timeScale / T) 0 1 *
        (if trailEnabled then trailAmount else 1) := rfl

/- ============================================================
   C1 — boundedness invariant
   ============================================================ -/

theorem simStep_mem_unit (W H : ℤ) (p : SimParams) (htr0 : 0 ≤ p.trail)
    (htr1 : p.trail ≤ 1) (f : ℤ → ℤ → ℝ) (x y : ℤ) :
    simStep W H p f x y ∈ Set.Icc (0 : ℝ) 1 := by
  have h := glClamp_mem_unit
    (f x y + growth (simPotential f W H p.R x y) p.mu p.sigma * p.dt / p.T)
  exact Set.mem_Icc.mpr ⟨mul_nonneg h.1 htr0, mul_le_one₀ h.2 htr0 htr1⟩

theorem ecoCellNext_mem_unit (f : ℤ → ℤ → ℝ × ℝ × ℝ) (W H : ℤ) (p : EcoParams)
    (x y : ℤ) :
    (ecoCellNext f W H p x y).1 ∈ Set.Icc (0 : ℝ) 1 ∧
      (ecoCellNext f W H p x y).2.1 ∈ Set.Icc (0 : ℝ) 1 ∧
      (ecoCellNext f W H p x y).2.2 ∈ Set.Icc (0 : ℝ) 1 := by
  unfold ecoCellNext ecoLocalNext
  refine ⟨Set.mem_Icc.mpr ⟨mul_nonneg (glClamp_mem_unit _).1 (by norm_num),
      mul_le_one₀ (glClamp_mem_unit _).2 (by norm_num) (by norm_num)⟩,
    Set.mem_Icc.mpr ⟨mul_nonneg (glClamp_mem_unit _).1 (by norm_num),
      mul_le_one₀ (glClamp_mem_unit _).2 (by norm_num) (by norm_num)⟩,
    Set.mem_Icc.mpr ⟨mul_nonneg (glClamp_mem_unit _).1 (by norm_num),
      mul_le_one₀ (glClamp_mem_unit _).2 (by norm_num) (by norm_num)⟩⟩

/-- Claim C1: starting from a field whose cells all lie in `[0,1]`, after
any number of ticks of the single-species step (trail multiplication
included, with the configured trail factor in `[0,1]`) every stored value
still lies in `[0,1]`; likewise for every channel of the ecosystem step,
whose per-species decay factors `0.9995 / 0.9993 / 0.9990` keep the clamped
values inside `[0,1]`. -/
theorem C1_boundedness (W H : ℤ) (sp : SimParams) (ep : EcoParams)
    (f : ℤ → ℤ → ℝ) (g : ℤ → ℤ → ℝ × ℝ × ℝ)
    (htr0 : 0 ≤ sp.trail) (htr1 : sp.trail ≤ 1)
    (hf : ∀ x y : ℤ, f x y ∈ Set.Icc (0 : ℝ) 1)
    (hg : ∀ x y : ℤ, (g x y).1 ∈ Set.Icc (0 : ℝ) 1 ∧
      (g x y).2.1 ∈ Set.Icc (0 : ℝ) 1 ∧ (g x y).2.2 ∈ Set.Icc (0 : ℝ) 1)
    (n : ℕ) (x y : ℤ) :
    (simStep W H sp)^[n] f x y ∈ Set.Icc (0 : ℝ) 1 ∧
      (((ecoStep W H ep)^[n] g x y).1 ∈ Set.Icc (0 : ℝ) 1 ∧
        ((ecoStep W H ep)^[n] g x y).2.1 ∈ Set.Icc (0 : ℝ) 1 ∧
        ((ecoStep W H ep)^[n] g x y).2.2 ∈ Set.Icc (0 : ℝ) 1) := by
  constructor
  · cases n with
    | zero => exact hf x y
    | succ m =>
      rw [Function.iterate_succ_apply']
      exact simStep_mem_unit W H sp htr0 htr1 _ x y
  · cases n with
    | zero => exact hg x y
    | succ m =>
      rw [Function.iterate_succ_apply']
      exact ecoCellNext_mem_unit _ W H ep x y

/-- Witness for `C1_boundedness`: the orbium parameters with the trail
effect enabled at `0.95`, the default ecosystem uniforms, constant
half-density start fields, three ticks, cell `(0,0)`. -/
theorem C1_boundedness_witness :
    (simStep 64 64 orbiumTrailParams)^[3] halfField 0 0 ∈ Set.Icc (0 : ℝ) 1 ∧
      (((ecoStep 64 64 ecoZeroInteraction)^[3] halfEcoField 0 0).1 ∈ Set.Icc (0 : ℝ) 1 ∧
        ((ecoStep 64 64 ecoZeroInteraction)^[3] halfEcoField 0 0).2.1 ∈ Set.Icc (0 : ℝ) 1 ∧
        ((ecoStep 64 64 ecoZeroInteraction)^[3] halfEcoField 0 0).2.2 ∈ Set.Icc (0 : ℝ) 1) :=
  C1_boundedness 64 64 orbiumTrailParams ecoZeroInteraction halfField halfEcoField
    (by norm_num [orbiumTrailParams]) (by norm_num [orbiumTrailParams])
    (fun x y => by norm_num [halfField, Set.mem_Icc])
    (fun x y => by norm_num [halfEcoField, Set.mem_Icc])
    3 0 0

/- ============================================================
   C10 — apex channel has no predation-loss term
   ============================================================ -/

theorem glClamp_mono (x y : ℝ) (h : x ≤ y) : glClamp x 0 1 ≤ glClamp y 0 1 :=
  min_le_min (max_le_max h (le_refl 0)) (le_refl 1)

/-- Claim C10: in the ecosystem update a predation-loss term
(`predD·predation·preyD`, resp. `apexD·predation·predD`) is subtracted from
the prey and predator channels, but the apex channel's pre-clamp value has
no loss term: it is the current density plus the own-channel growth term
plus a gain `predD·benefit·apexD·0.3` that is nonnegative whenever the
densities and the benefit strength are, minus only the density-dependent
crowding term; the stored value is that clamp multiplied by the constant
decay `0.9990`.  Consequently the apex result is at least what it would be
with every other-species contribution removed. -/
theorem C10_apex_no_loss
    (preyD predD apexD Gp Gq Ga dt Tx Ty Tz predation benefit : ℝ)
    (hq : 0 ≤ predD) (ha : 0 ≤ apexD) (hb : 0 ≤ benefit) :
    (ecoLocalNext preyD predD apexD Gp Gq Ga dt Tx Ty Tz predation benefit).2.2 =
      glClamp (apexD + Ga * dt / Tz + ecoApexGain predD apexD benefit
        - ecoCrowding preyD predD apexD * apexD) 0 1 * 0.9990 ∧
    0 ≤ ecoApexGain predD apexD benefit ∧
    glClamp (apexD + Ga * dt / Tz - ecoCrowding preyD predD apexD * apexD) 0 1 * 0.9990 ≤
      (ecoLocalNext preyD predD apexD Gp Gq Ga dt Tx Ty Tz predation benefit).2.2 ∧
    (ecoLocalNext preyD predD apexD Gp Gq Ga dt Tx Ty Tz predation benefit).1 =
      glClamp (preyD + Gp * dt / Tx - ecoPreyLoss preyD predD predation
        - ecoCrowding preyD predD apexD * preyD) 0 1 * 0.9995 ∧
    (ecoLocalNext preyD predD apexD Gp Gq Ga dt Tx Ty Tz predation benefit).2.1 =
      glClamp (predD + Gq * dt / Ty + ecoPredGain preyD predD benefit
        - ecoPredLoss predD apexD predation
        - ecoCrowding preyD predD apexD * predD) 0 1 * 0.9993 := by
  have hgain : 0 ≤ ecoApexGain predD apexD benefit := by
    unfold ecoApexGain
    positivity
  refine ⟨rfl, hgain, ?_, rfl, rfl⟩
  have hmono := glClamp_mono
    (apexD + Ga * dt / Tz - ecoCrowding preyD predD apexD * apexD)
    (apexD + Ga * dt / Tz + ecoApexGain predD apexD benefit
      - ecoCrowding preyD predD apexD * apexD) (by linarith)
  exact mul_le_mul_of_nonneg_right hmono (by norm_num)

/-- Witness for `C10_apex_no_loss` at concrete densities `(0.3, 0.2, 0.1)`,
growths `0.5`, `dt = 0.5`, the default time scales and interaction
strengths. -/
theorem C10_apex_no_loss_witness :
    (ecoLocalNext 0.3 0.2 0.1 0.5 0.5 0.5 0.5 15 20 25 0.15 0.12).2.2 =
      glClamp ((0.1 : ℝ) + 0.5 * 0.5 / 25 + ecoApexGain 0.2 0.1 0.12
        - ecoCrowding 0.3 0.2 0.1 * 0.1) 0 1 * 0.9990 ∧
    (0 : ℝ) ≤ ecoApexGain 0.2 0.1 0.12 ∧
    glClamp ((0.1 : ℝ) + 0.5 * 0.5 / 25 - ecoCrowding 0.3 0.2 0.1 * 0.1) 0 1 * 0.9990 ≤
      (ecoLocalNext 0.3 0.2 0.1 0.5 0.5 0.5 0.5 15 20 25 0.15 0.12).2.2 ∧
    (ecoLocalNext 0.3 0.2 0.1 0.5 0.5 0.5 0.5 15 20 25 0.15 0.12).1 =
      glClamp ((0.3 : ℝ) + 0.5 * 0.5 / 15 - ecoPreyLoss 0.3 0.2 0.15
        - ecoCrowding 0.3 0.2 0.1 * 0.3) 0 1 * 0.9995 ∧
    (ecoLocalNext 0.3 0.2 0.1 0.5 0.5 0.5 0.5 15 20 25 0.15 0.12).2.1 =
      glClamp ((0.2 : ℝ) + 0.5 * 0.5 / 20 + ecoPredGain 0.3 0.2 0.12
        - ecoPredLoss 0.2 0.1 0.15 - ecoCrowding 0.3 0.2 0.1 * 0.2) 0 1 * 0.9993 :=
  C10_apex_no_loss 0.3 0.2 0.1 0.5 0.5 0.5 0.5 15 20 25 0.15 0.12
    (by norm_num) (by norm_num) (by norm_num)

/- ============================================================
   C5 — kernel support: disc vs fixed square loop bound
   ============================================================ -/

theorem abs_le_offsetDist (d : ℤ × ℤ) :
    |(d.1 : ℝ)| ≤ offsetDist d ∧ |(d.2 : ℝ)| ≤ offsetDist d := by
  unfold offsetDist
  constructor
  · rw [← Real.sqrt_sq_eq_abs]
    exact Real.sqrt_le_sqrt (by nlinarith [sq_nonneg ((d.2 : ℝ))])
  · rw [← Real.sqrt_sq_eq_abs]
    exact Real.sqrt_le_sqrt (by nlinarith [sq_nonneg ((d.1 : ℝ))])

theorem offsetDist_horizontal (n : ℤ) (hn : 0 ≤ n) : offsetDist (n, 0) = (n : ℝ) := by
  show Real.sqrt (((n : ℤ) : ℝ) ^ 2 + ((0 : ℤ) : ℝ) ^ 2) = (n : ℝ)
  rw [show ((n : ℤ) : ℝ) ^ 2 + ((0 : ℤ) : ℝ) ^ 2 = ((n : ℤ) : ℝ) ^ 2 by push_cast; ring]
  exact Real.sqrt_sq (by exact_mod_cast hn)

/-- Claim C5, counterexample.  The claim asserts that for every radius `R`
reachable by mutation (up to 20) the potential is averaged over exactly
the offsets with Euclidean distance `≤ R`.  At `R = 20`, the offset
`(13, 0)` lies in that disc and carries the nonzero weight
`(4·(13/20)·(7/20))²`, yet the shader's fixed `[-12,12]` loop never
samples it. -/
theorem C5_counterexample :
    ((13, 0) : ℤ × ℤ) ∈ specDiscOffsets 20 ∧
      ((13, 0) : ℤ × ℤ) ∉ simSampledOffsets 20 ∧
      kernel (offsetDist (13, 0) / 20) ≠ 0 := by
  have h13 : offsetDist ((13 : ℤ), (0 : ℤ)) = 13 := by
    rw [offsetDist_horizontal 13 (by norm_num)]
    norm_num
  refine ⟨Finset.mem_filter.mpr ⟨?_, ?_⟩, ?_, ?_⟩
  · simp only [square, Finset.mem_product, Finset.mem_Icc, Nat.cast_ofNat]
    omega
  · rw [h13]
    norm_num
  · intro hmem
    have h1 := (Finset.mem_filter.mp hmem).1
    simp only [square, Finset.mem_product, Finset.mem_Icc, Nat.cast_ofNat] at h1
    omega
  · rw [h13]
    unfold kernel
    norm_num

/-- Claim C5, amended: the single-species potential is the
`w(r) = (4r(1-r))²`-weighted average over the offsets of the fixed
`[-12,12]` square that lie within Euclidean distance `R`; for every radius
`0 ≤ R ≤ 12` that sampled set is exactly the disc of radius `R`, so the
claim holds as stated there, but for `12 < R ≤ 20` (radii reachable by
mutation or the Lab panel) the disc is truncated to the square. -/
theorem C5_amended (R : ℝ) (hR : 0 ≤ R) (h12 : R ≤ 12) :
    simSampledOffsets R = specDiscOffsets R ∧
      (∀ r : ℝ, kernel r = (4 * r * (1 - r)) ^ 2) ∧
      ∀ (f : ℤ → ℤ → ℝ) (W H x y : ℤ),
        simPotential f W H R x y =
          (∑ d ∈ simSampledOffsets R, kernel (offsetDist d / R) *
              f (simSampleIndex W (x + d.1)) (simSampleIndex H (y + d.2))) /
            max (∑ d ∈ simSampledOffsets R, kernel (offsetDist d / R)) 0.001 := by
  refine ⟨?_, fun r => rfl, ?_⟩
  · ext d
    simp only [simSampledOffsets, specDiscOffsets, Finset.mem_filter, square,
      Finset.mem_product, Finset.mem_Icc, Nat.cast_ofNat]
    constructor
    · rintro ⟨⟨⟨ha1, ha2⟩, hb1, hb2⟩, hd⟩
      exact ⟨⟨⟨by omega, by omega⟩, by omega, by omega⟩, hd⟩
    · rintro ⟨-, hd⟩
      have h1 := (abs_le_offsetDist d).1.trans (hd.trans h12)
      have h2 := (abs_le_offsetDist d).2.trans (hd.trans h12)
      rw [abs_le] at h1 h2
      have i1 : -12 ≤ d.1 := by exact_mod_cast h1.1
      have i2 : d.1 ≤ 12 := by exact_mod_cast h1.2
      have i3 : -12 ≤ d.2 := by exact_mod_cast h2.1
      have i4 : d.2 ≤ 12 := by exact_mod_cast h2.2
      exact ⟨⟨⟨i1, i2⟩, i3, i4⟩, hd⟩
  · intro f W H x y
    unfold simPotential simTotal simKernelSum simSampledOffsets
    rw [Finset.sum_filter, Finset.sum_filter]

/-- Witness for `C5_amended` at `R = 10` (the orbium radius), with the
half-density field at cell `(0,0)` on a 64×64 grid. -/
theorem C5_amended_witness :
    simSampledOffsets 10 = specDiscOffsets 10 ∧
      kernel 0.5 = (4 * 0.5 * (1 - 0.5 : ℝ)) ^ 2 ∧
      simPotential halfField 64 64 10 0 0 =
        (∑ d ∈ simSampledOffsets 10, kernel (offsetDist d / 10) *
            halfField (simSampleIndex 64 (0 + d.1)) (simSampleIndex 64 (0 + d.2))) /
          max (∑ d ∈ simSampledOffsets 10, kernel (offsetDist d / 10)) 0.001 :=
  ⟨(C5_amended 10 (by norm_num) (by norm_num)).1,
   (C5_amended 10 (by norm_num) (by norm_num)).2.1 0.5,
   (C5_amended 10 (by norm_num) (by norm_num)).2.2 halfField 64 64 0 0⟩

/- ============================================================
   C2 — ecosystem step with zero interaction strengths
   ============================================================ -/

theorem ecoChannelTotal_const (v : ℝ) (W H : ℤ) (R : ℝ) (x y : ℤ) :
    ecoChannelTotal (fun _ _ => v) W H R x y = v * ecoChannelKernelSum R := by
  unfold ecoChannelTotal ecoChannelKernelSum
  rw [Finset.mul_sum]
  refine Finset.sum_congr rfl fun d _ => ?_
  split_ifs <;> ring

theorem one_le_ecoChannelKernelSum (n : ℤ) (R : ℝ) (h1 : 1 ≤ n) (h15 : n ≤ 15)
    (hR : (n : ℝ) * 2 = R) : 1 ≤ ecoChannelKernelSum R := by
  have hd : offsetDist (n, 0) = (n : ℝ) := offsetDist_horizontal n (by omega)
  have hn1 : (1 : ℝ) ≤ (n : ℝ) := by exact_mod_cast h1
  have hmem : ((n, 0) : ℤ × ℤ) ∈ square 15 := by
    simp only [square, Finset.mem_product, Finset.mem_Icc, Nat.cast_ofNat]
    omega
  have hterm :
      (if (0.5 : ℝ) ≤ offsetDist (n, 0) ∧ offsetDist (n, 0) ≤ R then
        kernel (offsetDist (n, 0) / R) else 0) = 1 := by
    rw [hd, if_pos ⟨by linarith, by rw [← hR]; linarith⟩]
    have hne : (n : ℝ) ≠ 0 := by linarith
    rw [← hR, show (n : ℝ) / ((n : ℝ) * 2) = 1 / 2 by field_simp]
    unfold kernel
    norm_num
  unfold ecoChannelKernelSum
  have hsum :
      (if (0.5 : ℝ) ≤ offsetDist (n, 0) ∧ offsetDist (n, 0) ≤ R then
        kernel (offsetDist (n, 0) / R) else 0) ≤
      ∑ d ∈ square 15, if (0.5 : ℝ) ≤ offsetDist d ∧ offsetDist d ≤ R then
        kernel (offsetDist d / R) else 0 := by
    refine Finset.single_le_sum (f := fun d : ℤ × ℤ =>
      if (0.5 : ℝ) ≤ offsetDist d ∧ offsetDist d ≤ R then kernel (offsetDist d / R) else 0)
      (fun i _ => ?_) hmem
    dsimp only
    split_ifs
    · unfold kernel
      positivity
    · exact le_refl 0
  exact le_trans (le_of_eq hterm.symm) hsum

theorem ecoPotential_const (v : ℝ) (W H : ℤ) (R : ℝ) (x y : ℤ)
    (hS : 1 ≤ ecoChannelKernelSum R) :
    ecoPotential (fun _ _ => v) W H R x y = v := by
  unfold ecoPotential
  rw [ecoChannelTotal_const, max_eq_left (by linarith), mul_div_assoc,
    div_self (by linarith), mul_one]

theorem ecoCellNext_const_fst (a b c : ℝ) (W H x y : ℤ) (p : EcoParams)
    (hS : 1 ≤ ecoChannelKernelSum p.R.1) :
    (ecoCellNext (fun _ _ => (a, b, c)) W H p x y).1 =
      glClamp (a + growth a p.mu.1 p.sigma.1 * p.dt / p.T.1
        - ecoPreyLoss a b p.predation - ecoCrowding a b c * a) 0 1 * 0.9995 := by
  unfold ecoCellNext
  have h1 : ecoPotential (fun i j => ((fun _ _ => ((a, b, c) : ℝ × ℝ × ℝ)) i j).1)
      W H p.R.1 x y = a :=
    ecoPotential_const a W H p.R.1 x y hS
  rw [h1]
  rfl

/-- Claim C2, counterexample.  The claim asserts that with predation
strength 0 and benefit strength 0 the ecosystem step equals three
independent single-species steps, each channel's new value depending only
on that channel's own current values.  Take the ecosystem uniforms with
both strengths 0 and two constant fields that agree everywhere on the prey
(and predator) channel and differ only in the apex channel: the prey
channel's new value differs, because the crowding term reads the total
local density across all channels and does not vanish. -/
theorem C2_counterexample :
    (ecoCellNext ecoFieldA 64 64 ecoZeroInteraction 0 0).1 ≠
      (ecoCellNext ecoFieldB 64 64 ecoZeroInteraction 0 0).1 := by
  have hS : (1 : ℝ) ≤ ecoChannelKernelSum ecoZeroInteraction.R.1 :=
    one_le_ecoChannelKernelSum 5 ecoZeroInteraction.R.1 (by norm_num) (by norm_num)
      (by norm_num [ecoZeroInteraction])
  have hA := ecoCellNext_const_fst 0.4 0.4 0.4 64 64 0 0 ecoZeroInteraction hS
  have hB := ecoCellNext_const_fst 0.4 0.4 0 64 64 0 0 ecoZeroInteraction hS
  have hcA : ecoCrowding 0.4 0.4 0.4 = 0.0784 := by
    unfold ecoCrowding smoothstep
    rw [glClamp_eq_self ((0.4 + 0.4 + 0.4 - 0.5) / (1.5 - 0.5)) (by norm_num) (by norm_num)]
    norm_num
  have hcB : ecoCrowding 0.4 0.4 0 = 0.0216 := by
    unfold ecoCrowding smoothstep
    rw [glClamp_eq_self ((0.4 + 0.4 + 0 - 0.5) / (1.5 - 0.5)) (by norm_num) (by norm_num)]
    norm_num
  have e1 : ecoZeroInteraction.mu.1 = 0.14 := rfl
  have e2 : ecoZeroInteraction.sigma.1 = 0.015 := rfl
  have e3 : ecoZeroInteraction.dt = 0.5 := rfl
  have e4 : ecoZeroInteraction.T.1 = 15 := rfl
  have e5 : ecoPreyLoss 0.4 0.4 ecoZeroInteraction.predation = 0 := by
    unfold ecoPreyLoss
    rw [show ecoZeroInteraction.predation = 0 from rfl]
    ring
  rw [show ecoFieldA = (fun _ _ => ((0.4 : ℝ), 0.4, 0.4)) from rfl,
    show ecoFieldB = (fun _ _ => ((0.4 : ℝ), 0.4, 0)) from rfl, hA, hB,
    e1, e2, e3, e4, e5, hcA, hcB]
  have hg := growth_bounds 0.4 0.14 0.015
  rw [glClamp_eq_self (0.4 + growth 0.4 0.14 0.015 * 0.5 / 15 - 0 - 0.0784 * 0.4)
      (by linarith [hg.1]) (by linarith [hg.2]),
    glClamp_eq_self (0.4 + growth 0.4 0.14 0.015 * 0.5 / 15 - 0 - 0.0216 * 0.4)
      (by linarith [hg.1]) (by linarith [hg.2])]
  intro h
  linarith [hg.1, hg.2]

/-- Claim C2, amended: with predation strength 0 and benefit strength 0,
every predation-loss and benefit-gain term of the ecosystem update
vanishes, but the step does not reduce to three independent single-species
steps: the crowding term still couples the channels through the total
same-cell density, and each channel keeps its per-species decay factor
(`0.9995 / 0.9993 / 0.9990`). -/
theorem C2_amended (preyD predD apexD Gp Gq Ga dt Tx Ty Tz : ℝ) :
    ecoLocalNext preyD predD apexD Gp Gq Ga dt Tx Ty Tz 0 0 =
      (glClamp (preyD + Gp * dt / Tx - ecoCrowding preyD predD apexD * preyD) 0 1 * 0.9995,
       glClamp (predD + Gq * dt / Ty - ecoCrowding preyD predD apexD * predD) 0 1 * 0.9993,
       glClamp (apexD + Ga * dt / Tz - ecoCrowding preyD predD apexD * apexD) 0 1 * 0.9990) := by
  unfold ecoLocalNext ecoPreyLoss ecoPredGain ecoPredLoss ecoApexGain
  simp only [Prod.mk.injEq]
  refine ⟨?_, ?_, ?_⟩ <;> (congr 2; ring)
